import Mathlib

/-!
Verification of the clinical-text extraction core of the Alexandria
repository (file `extractor.py`).  The Python source is shallowly embedded:
the fixed symptom-to-code table is an association list, the keyword matcher
is a filter over the length-sorted key list followed by the same
first-occurrence deduplication loop, the severity scanner is a small
backtracking matcher implementing exactly the three numeric patterns used by
the source together with the left-to-right non-overlapping match enumeration
of `re.finditer`, and the confidence score is computed over `ℚ` (every value
reachable in the source is an exact multiple of 1/100, so exact rational
arithmetic coincides with the float arithmetic of the source on all
reachable values).
-/

namespace Alexandria

/-- Embedding of `SNOMED_SYMPTOM_MAP` (extractor.py lines 8-19), an insertion
ordered dictionary from symptom phrase to 9-digit code string. -/
def SNOMED_SYMPTOM_MAP : List (String × String) :=
  [("pelvic pain", "21522001"),
   ("lower back pain", "279039007"),
   ("cramps", "84387000"),
   ("dysmenorrhea", "266599000"),
   ("fatigue", "84229001"),
   ("nausea", "422587007"),
   ("migraine", "37796009"),
   ("bloating", "116289008"),
   ("headache", "25064002"),
   ("abdominal pain", "21522001")]

/-- The keys of the catalog in insertion order (`SNOMED_SYMPTOM_MAP.keys()`). -/
def catalogKeys : List String := SNOMED_SYMPTOM_MAP.map Prod.fst

/-- Dictionary lookup `SNOMED_SYMPTOM_MAP[s]`; `none` models a `KeyError`. -/
def codeOf (k : String) : Option String := SNOMED_SYMPTOM_MAP.lookup k

/-- Stable insertion of a string into a list sorted by length descending:
the new element goes after every element of length greater than or equal to
its own, which reproduces the stability of Python `sorted(key=len,
reverse=True)`. -/
def insertByLenDesc (x : String) : List String → List String
  | [] => [x]
  | y :: ys => if x.length ≤ y.length then y :: insertByLenDesc x ys else x :: y :: ys

/-- Embedding of `SYMPTOM_KEYWORDS = sorted(SNOMED_SYMPTOM_MAP.keys(),
key=len, reverse=True)` (extractor.py line 22): keys sorted by phrase length
descending, ties kept in insertion order. -/
def SYMPTOM_KEYWORDS : List String :=
  catalogKeys.foldl (fun acc k => insertByLenDesc k acc) []

/-- Embedding of Python `str.lower()` (ASCII case folding suffices for the
catalog and the severity patterns, which are all ASCII). -/
def pyLower (s : String) : String := ⟨s.data.map Char.toLower⟩

/-- Embedding of the Python substring test `needle in haystack`. -/
def containsSub (needle : List Char) : List Char → Bool
  | [] => needle.isEmpty
  | c :: rest => needle.isPrefixOf (c :: rest) || containsSub needle rest

/-- Embedding of the deduplication loop of `_extract_symptoms`
(extractor.py lines 72-77): keep the first occurrence of each string,
where `seen` is the set of strings already emitted. -/
def dedupeAux (seen : List String) : List String → List String
  | [] => []
  | s :: rest => if s ∈ seen then dedupeAux seen rest else s :: dedupeAux (s :: seen) rest

/-- Embedding of `_extract_symptoms` (extractor.py lines 58-77): lowercase
the text, keep every keyword occurring as a substring (scanning the
length-sorted keyword list in order), then deduplicate preserving order. -/
def extract_symptoms (text : String) : List String :=
  let lowered := pyLower text
  let found := SYMPTOM_KEYWORDS.filter (fun keyword => containsSub keyword.data lowered.data)
  dedupeAux [] found

/-- Characters matched by the regex class `\s` (ASCII part). -/
def isSpacePy (c : Char) : Bool :=
  c == ' ' || c == '\t' || c == '\n' || c == '\x0d' || c == '\x0b' || c == '\x0c'

/-- Characters matched by the regex class `\w` (ASCII part), used by the
word-boundary assertion `\b`. -/
def wordChar (c : Char) : Bool := c.isAlphanum || c == '_'

/-- The word-boundary test `\b`: the previous character and the next
character disagree on being word characters (string edges count as
non-word). -/
def boundary (prev : Option Char) (rest : List Char) : Bool :=
  let a := match prev with
    | some c => wordChar c
    | none => false
  let b := match rest with
    | c :: _ => wordChar c
    | [] => false
  a != b

/-- Abstract syntax for the fragment of Python regular expressions used by
`_extract_severity`: literals, character classes, concatenation, prioritized
alternation, greedy option, greedy star of a character class, the
word-boundary assertion and a single capturing group. -/
inductive RE where
  | eps : RE
  | lit : Char → RE
  | cls : (Char → Bool) → RE
  | strLit : List Char → RE
  | seq : RE → RE → RE
  | alt : RE → RE → RE
  | opt : RE → RE
  | starCls : (Char → Bool) → RE
  | wb : RE
  | grp : RE → RE

/-- Greedy matching states of `p*` for a character class `p`: consume a
maximal run of `p`-characters and enumerate the backtracking states from
longest consumption to shortest, tracking the last consumed character. -/
def munch (p : Char → Bool) : Option Char → List Char → List (Option Char × List Char)
  | prev, [] => [(prev, [])]
  | prev, c :: cs =>
    if p c then munch p (some c) cs ++ [(prev, c :: cs)] else [(prev, c :: cs)]

/-- Consume a literal character sequence, tracking the last consumed
character; `none` when the input does not start with the literal. -/
def dropLit : List Char → Option Char → List Char → Option (Option Char × List Char)
  | [], prev, rest => some (prev, rest)
  | _ :: _, _, [] => none
  | c :: cs, _, x :: xs => if x == c then dropLit cs (some x) xs else none

/-- Backtracking matcher: all ways a regex can match a prefix of `rest`
(given the character `prev` just before it), in Python backtracking
priority order.  Each state is (last consumed character, remaining input,
captured group contents if the capturing group was traversed). -/
def runRE : RE → Option Char → List Char → List (Option Char × List Char × Option (List Char))
  | .eps, prev, rest => [(prev, rest, none)]
  | .lit _, _, [] => []
  | .lit c, _, x :: xs => if x == c then [(some x, xs, none)] else []
  | .cls _, _, [] => []
  | .cls p, _, x :: xs => if p x then [(some x, xs, none)] else []
  | .strLit cs, prev, rest =>
    match dropLit cs prev rest with
    | some (p2, r2) => [(p2, r2, none)]
    | none => []
  | .seq a b, prev, rest =>
    (runRE a prev rest).flatMap (fun s =>
      (runRE b s.1 s.2.1).map (fun t => (t.1, t.2.1, s.2.2.orElse (fun _ => t.2.2))))
  | .alt a b, prev, rest => runRE a prev rest ++ runRE b prev rest
  | .opt a, prev, rest => runRE a prev rest ++ [(prev, rest, none)]
  | .starCls p, prev, rest => (munch p prev rest).map (fun s => (s.1, s.2, none))
  | .wb, prev, rest => if boundary prev rest then [(prev, rest, none)] else []
  | .grp a, prev, rest =>
    (runRE a prev rest).map (fun s => (s.1, s.2.1, some (rest.take (rest.length - s.2.1.length))))

/-- Enumeration of the non-overlapping matches of `re.finditer`, scanning
start positions left to right, taking at each position the highest-priority
match, and resuming after the end of each match (one character further for
an empty match).  Yields the contents of the capturing group of each match.
The fuel argument bounds the number of scanning steps. -/
def findIterAux (r : RE) : Nat → Option Char → List Char → List (Option (List Char))
  | 0, _, _ => []
  | Nat.succ fuel, prev, text =>
    match runRE r prev text with
    | [] =>
      match text with
      | [] => []
      | c :: rest => findIterAux r fuel (some c) rest
    | (p2, rest2, cap) :: _ =>
      if text.length = rest2.length then
        cap :: (match text with
                | [] => []
                | c :: rest => findIterAux r fuel (some c) rest)
      else cap :: findIterAux r fuel p2 rest2

/-- All captures of `re.finditer(r, t)` in match order. -/
def finditerCaps (r : RE) (t : List Char) : List (Option (List Char)) :=
  findIterAux r (t.length + 1) none t

/-- Decimal value of a digit string. -/
def digitsVal (cs : List Char) : Nat := cs.foldl (fun a c => a * 10 + (c.toNat - 48)) 0

/-- Embedding of `int(s)` restricted to what the capturing group can
produce (a non-empty string of decimal digits); `none` models a
`ValueError`. -/
def parseInt (cs : List Char) : Option Int :=
  if !cs.isEmpty && cs.all (fun c => c.isDigit) then some (Int.ofNat (digitsVal cs)) else none

/-- Embedding of the inner loop of `_extract_severity` (extractor.py lines
44-53): walk the matches of one pattern in order; a match with no captured
group, or whose captured text fails to parse, is skipped; the first parsed
value inside [0, 10] is returned. -/
def findFirstValid : List (Option (List Char)) → Option Int
  | [] => none
  | g? :: rest =>
    match g?.bind parseInt with
    | none => findFirstValid rest
    | some v => if 0 ≤ v ∧ v ≤ 10 then some v else findFirstValid rest

/-- The capturing group `([0-9]|10)` shared by the three severity patterns. -/
def numGroup : RE := .grp (.alt (.cls Char.isDigit) (.strLit ['1', '0']))

/-- The regex `\s+`. -/
def sPlus : RE := .seq (.cls isSpacePy) (.starCls isSpacePy)

/-- Embedding of the first severity pattern (extractor.py line 38),
a digit 0-10 followed by a slash and the literal 10, both sides
word-bounded, with optional whitespace around the slash. -/
def pat1 : RE :=
  .seq .wb (.seq numGroup (.seq (.starCls isSpacePy)
    (.seq (.lit '/') (.seq (.starCls isSpacePy) (.seq (.strLit ['1', '0']) .wb)))))

/-- Embedding of the second severity pattern (extractor.py line 39),
a digit 0-10 followed by the words out of 10. -/
def pat2 : RE :=
  .seq .wb (.seq numGroup (.seq sPlus
    (.seq (.strLit "out of".data) (.seq sPlus (.seq (.strLit ['1', '0']) .wb)))))

/-- Embedding of the third severity pattern (extractor.py line 40),
an optional hedging word followed by optional whitespace and a bare
digit 0-10. -/
def pat3 : RE :=
  .seq .wb (.seq (.opt (.alt (.strLit "about".data)
    (.alt (.strLit "around".data) (.strLit "roughly".data))))
    (.seq (.starCls isSpacePy) (.seq numGroup .wb)))

/-- The ordered rule list of `_extract_severity` (extractor.py lines 37-41). -/
def severityPatterns : List RE := [pat1, pat2, pat3]

/-- Embedding of the outer loop of `_extract_severity` (extractor.py lines
43-55): evaluate the rules in order and return as soon as one of them
yields a value. -/
def severityLoop (text : List Char) : List RE → Option Int
  | [] => none
  | p :: ps =>
    match findFirstValid (finditerCaps p text) with
    | some v => some v
    | none => severityLoop text ps

/-- Embedding of `_extract_severity` (extractor.py lines 25-55). -/
def extract_severity (text : String) : Option Int :=
  severityLoop (pyLower text).data severityPatterns

/-- Two-decimal rounding of `round(x, 2)`.  Every score reachable in
`_compute_confidence` has an integral value of `q * 100`, so the tie
breaking rule of the rounding never matters for the embedded program. -/
def round2 (q : ℚ) : ℚ := ((round (q * 100) : ℤ) : ℚ) / 100

/-- Embedding of `_compute_confidence` (extractor.py lines 80-90): base
0.5, plus 0.25 when at least one symptom matched, plus 0.15 when a
severity was found, clamped to [0, 0.99] and rounded to two decimals. -/
def compute_confidence (num_symptoms : Nat) (has_severity : Bool) : ℚ :=
  let base : ℚ := 0.5
  let base := if num_symptoms > 0 then base + 0.25 else base
  let base := if has_severity then base + 0.15 else base
  round2 (min (max base 0.0) 0.99)

/-- The record returned by `extract_clinical_data` (extractor.py lines
110-116), with the field names of the source dictionary. -/
structure ExtractionRecord where
  original_text : String
  extracted_symptoms : List String
  snomed_codes : List String
  severity : Option Int
  confidence_score : ℚ
deriving DecidableEq, Repr

/-- Embedding of the body of `extract_clinical_data` (extractor.py lines
105-116) on string input.  The code lookup `SNOMED_SYMPTOM_MAP[s]` is
embedded as `(codeOf s).getD ""`, with the default standing for the
`KeyError` case; the development proves the default is never taken. -/
def extract_clinical_data (user_text : String) : ExtractionRecord :=
  let symptoms := extract_symptoms user_text
  let snomed_codes := symptoms.map (fun s => (codeOf s).getD "")
  let severity := extract_severity user_text
  let confidence := compute_confidence symptoms.length severity.isSome
  { original_text := user_text
    extracted_symptoms := symptoms
    snomed_codes := snomed_codes
    severity := severity
    confidence_score := confidence }

/-- Values of the serialized structured document (JSON-like). -/
inductive JValue where
  | jstr : String → JValue
  | jarr : List String → JValue
  | jint : Int → JValue
  | jnull : JValue
  | jnum : ℚ → JValue
deriving DecidableEq

/-- Serialization of the returned dictionary in the field order of the
source literal (extractor.py lines 110-116). -/
def serializeRecord (r : ExtractionRecord) : List (String × JValue) :=
  [("original_text", .jstr r.original_text),
   ("extracted_symptoms", .jarr r.extracted_symptoms),
   ("snomed_codes", .jarr r.snomed_codes),
   ("severity", match r.severity with
     | some v => .jint v
     | none => .jnull),
   ("confidence_score", .jnum r.confidence_score)]

/-- A dynamically typed Python argument: either a string or one of the
non-string values callers could pass. -/
inductive PyValue where
  | str : String → PyValue
  | intVal : Int → PyValue
  | pyNone : PyValue
  | other : String → PyValue
deriving DecidableEq

/-- Embedding of the guarded entry point of `extract_clinical_data`
(extractor.py lines 102-103): non-string arguments raise
`TypeError("user_text must be a string")`, string arguments are processed
by the body. -/
def extract_clinical_data_py : PyValue → Except String ExtractionRecord
  | .str s => .ok (extract_clinical_data s)
  | _ => .error "user_text must be a string"

/-- Modelled from the spec (section 4, confidence scoring): start at a fixed
base score 0.5, add 0.25 when at least one symptom matched, add 0.15 when a
severity value was found, clamp the result to [0, 0.99] and round to two
decimal places.  Stated from the words of the specification so it can be
compared with `compute_confidence`, which is embedded from the source. -/
def confidenceSpec (symMatched sevFound : Bool) : ℚ :=
  round2 (min (max ((0.5 : ℚ) + (if symMatched then 0.25 else 0)
    + (if sevFound then 0.15 else 0)) 0.0) 0.99)

/-- Membership in the deduplicated list: exactly the elements of the input
that are not among the already-seen ones. -/
theorem mem_dedupeAux (x : String) :
    ∀ (l seen : List String), x ∈ dedupeAux seen l ↔ x ∈ l ∧ x ∉ seen := by
  intro l
  induction l with
  | nil => intro seen; simp [dedupeAux]
  | cons s rest ih =>
      intro seen
      by_cases hs : s ∈ seen
      · rw [show dedupeAux seen (s :: rest) = dedupeAux seen rest by
          simp [dedupeAux, hs], ih]
        constructor
        · rintro ⟨h1, h2⟩
          exact ⟨List.mem_cons_of_mem _ h1, h2⟩
        · rintro ⟨h1, h2⟩
          rcases List.mem_cons.mp h1 with rfl | h1
          · exact absurd hs h2
          · exact ⟨h1, h2⟩
      · rw [show dedupeAux seen (s :: rest) = s :: dedupeAux (s :: seen) rest by
          simp [dedupeAux, hs]]
        constructor
        · intro hmem
          rcases List.mem_cons.mp hmem with rfl | h1
          · exact ⟨List.mem_cons_self _ _, hs⟩
          · rcases (ih (s :: seen)).mp h1 with ⟨h2, h3⟩
            exact ⟨List.mem_cons_of_mem _ h2, fun hx => h3 (List.mem_cons_of_mem _ hx)⟩
        · rintro ⟨h1, h2⟩
          rcases List.mem_cons.mp h1 with rfl | h1
          · exact List.mem_cons_self _ _
          · by_cases hxs : x = s
            · subst hxs; exact List.mem_cons_self _ _
            · exact List.mem_cons_of_mem _
                ((ih (s :: seen)).mpr
                  ⟨h1, fun hx => ((List.mem_cons.mp hx).elim hxs h2)⟩)

/-- Deduplication is the identity on a duplicate-free list disjoint from the
seen set. -/
theorem dedupeAux_eq_self :
    ∀ (l seen : List String), l.Nodup → (∀ x ∈ l, x ∉ seen) → dedupeAux seen l = l := by
  intro l
  induction l with
  | nil => intro seen _ _; rfl
  | cons s rest ih =>
      intro seen hnd hdisj
      have hs : s ∉ seen := hdisj s (List.mem_cons_self _ _)
      rw [show dedupeAux seen (s :: rest) = s :: dedupeAux (s :: seen) rest by
        simp [dedupeAux, hs]]
      congr 1
      apply ih
      · exact (List.nodup_cons.mp hnd).2
      · intro x hx hmem
        rcases List.mem_cons.mp hmem with rfl | h2
        · exact (List.nodup_cons.mp hnd).1 hx
        · exact hdisj x (List.mem_cons_of_mem _ hx) h2

/-- The computed keyword order: length descending, ties in insertion order,
exactly as Python `sorted(key=len, reverse=True)` produces it. -/
theorem keywords_eq :
    SYMPTOM_KEYWORDS = ["lower back pain", "abdominal pain", "dysmenorrhea", "pelvic pain",
      "migraine", "bloating", "headache", "fatigue", "cramps", "nausea"] := by decide

theorem keywords_nodup : SYMPTOM_KEYWORDS.Nodup := by decide

theorem catalogKeys_eq :
    catalogKeys = ["pelvic pain", "lower back pain", "cramps", "dysmenorrhea", "fatigue",
      "nausea", "migraine", "bloating", "headache", "abdominal pain"] := by decide

/-- The sorted keyword list holds exactly the catalog keys. -/
theorem mem_keywords_iff (x : String) : x ∈ SYMPTOM_KEYWORDS ↔ x ∈ catalogKeys := by
  rw [keywords_eq, catalogKeys_eq]
  simp only [List.mem_cons, List.not_mem_nil, or_false]
  tauto

/-- Every keyword has a code in the catalog. -/
theorem keywords_have_codes : ∀ x ∈ SYMPTOM_KEYWORDS, (codeOf x).isSome = true := by decide

/-- The symptom matcher is the containment filter over the length-sorted
keyword list (the deduplication pass is the identity because the keyword
list has no duplicates). -/
theorem extract_symptoms_eq_filter (s : String) :
    extract_symptoms s
      = SYMPTOM_KEYWORDS.filter (fun k => containsSub k.data (pyLower s).data) := by
  unfold extract_symptoms
  exact dedupeAux_eq_self _ [] (keywords_nodup.filter _) (by intro x _ hx; cases hx)

/-- The matched symptom list never repeats a phrase. -/
theorem extract_symptoms_nodup (s : String) : (extract_symptoms s).Nodup := by
  rw [extract_symptoms_eq_filter]
  exact keywords_nodup.filter _

/-- Every matched symptom is one of the sorted keywords. -/
theorem mem_extract_symptoms (s x : String) (h : x ∈ extract_symptoms s) :
    x ∈ SYMPTOM_KEYWORDS := by
  rw [extract_symptoms_eq_filter] at h
  exact List.mem_of_mem_filter h

/-- Membership characterization of the matched symptom list. -/
theorem mem_extract_symptoms_iff (s x : String) :
    x ∈ extract_symptoms s
      ↔ x ∈ catalogKeys ∧ containsSub x.data (pyLower s).data = true := by
  rw [extract_symptoms_eq_filter, List.mem_filter, mem_keywords_iff]

/-- A value returned by the per-pattern scan passed the range guard of the
source. -/
theorem findFirstValid_le :
    ∀ (l : List (Option (List Char))) (v : Int),
      findFirstValid l = some v → 0 ≤ v ∧ v ≤ 10 := by
  intro l
  induction l with
  | nil => intro v h; exact absurd h (by simp [findFirstValid])
  | cons g? rest ih =>
      intro v h
      unfold findFirstValid at h
      split at h
      · exact ih v h
      · split at h
        · cases h
          assumption
        · exact ih v h

/-- A value returned by the rule loop passed the range guard of the source. -/
theorem severityLoop_le :
    ∀ (ps : List RE) (t : List Char) (v : Int),
      severityLoop t ps = some v → 0 ≤ v ∧ v ≤ 10 := by
  intro ps
  induction ps with
  | nil => intro t v h; exact absurd h (by simp [severityLoop])
  | cons p rest ih =>
      intro t v h
      unfold severityLoop at h
      split at h
      · cases h
        exact findFirstValid_le _ _ (by assumption)
      · exact ih t v h

/-- Closed form of the confidence computation: four reachable values,
selected by the two booleans of the source. -/
theorem compute_confidence_cases (n : Nat) (b : Bool) :
    compute_confidence n b
      = if 0 < n then (if b then (0.9 : ℚ) else 0.75) else (if b then (0.65 : ℚ) else 0.5) := by
  cases n with
  | zero =>
      cases b <;> simp only [compute_confidence, round2, Nat.lt_irrefl, if_false,
        if_true, gt_iff_lt, reduceIte] <;> norm_num [round_eq]
  | succ m =>
      have hm : 0 < m + 1 := Nat.succ_pos m
      cases b <;> simp only [compute_confidence, round2, gt_iff_lt, hm, if_true,
        reduceIte] <;> norm_num [round_eq]

/-- The source computation agrees with the confidence formula as the
specification words it. -/
theorem compute_confidence_eq_spec (n : Nat) (b : Bool) :
    compute_confidence n b = confidenceSpec (n != 0) b := by
  rw [compute_confidence_cases]
  cases n with
  | zero => cases b <;> norm_num [confidenceSpec, round2, round_eq]
  | succ m =>
      rw [show ((m + 1 : Nat) != 0) = true from rfl, if_pos (Nat.succ_pos m)]
      cases b <;> norm_num [confidenceSpec, round2, round_eq]

/-- Evaluation helper: the confidence field is the scorer applied to the
symptom count and the severity flag. -/
theorem confidence_score_eval (s : String) (n : Nat) (b : Bool)
    (hn : (extract_symptoms s).length = n) (hb : (extract_severity s).isSome = b) :
    (extract_clinical_data s).confidence_score = compute_confidence n b := by
  show compute_confidence (extract_symptoms s).length (extract_severity s).isSome = _
  rw [hn, hb]

/-- C1: for every string input, the extraction record has positionally
parallel symptom and code sequences — same length, with the code at each
index being the catalog code of the symptom at that index — and the
confidence score lies in the interval [0.0, 0.99]. -/
theorem extraction_record_invariants (s : String) :
    (extract_clinical_data s).extracted_symptoms.length
        = (extract_clinical_data s).snomed_codes.length
    ∧ (∀ i : Nat, (extract_clinical_data s).snomed_codes[i]?
        = ((extract_clinical_data s).extracted_symptoms[i]?).bind codeOf)
    ∧ 0 ≤ (extract_clinical_data s).confidence_score
    ∧ (extract_clinical_data s).confidence_score ≤ 0.99 := by
  refine ⟨?_, ?_, ?_, ?_⟩
  · show (extract_symptoms s).length
        = ((extract_symptoms s).map (fun k => (codeOf k).getD "")).length
    rw [List.length_map]
  · intro i
    show ((extract_symptoms s).map (fun k => (codeOf k).getD ""))[i]?
        = ((extract_symptoms s)[i]?).bind codeOf
    rw [List.getElem?_map]
    cases hi : (extract_symptoms s)[i]? with
    | none => rfl
    | some x =>
        have hx : x ∈ extract_symptoms s := List.getElem?_mem hi
        have hk := keywords_have_codes x (mem_extract_symptoms s x hx)
        rcases Option.isSome_iff_exists.mp hk with ⟨c, hc⟩
        simp [hc]
  · show 0 ≤ compute_confidence (extract_symptoms s).length (extract_severity s).isSome
    rw [compute_confidence_cases]
    split_ifs <;> norm_num
  · show compute_confidence (extract_symptoms s).length (extract_severity s).isSome ≤ 0.99
    rw [compute_confidence_cases]
    split_ifs <;> norm_num

/-- C2: the matched symptom list consists of exactly the catalog phrases
occurring as literal substrings of the lowercased input, listed in the
order of the scan over the keys sorted by length descending, with no phrase
appearing twice; when no catalog phrase occurs, both the symptom list and
the code list are empty. -/
theorem symptom_scan_exact (s : String) :
    extract_symptoms s
        = SYMPTOM_KEYWORDS.filter (fun k => containsSub k.data (pyLower s).data)
    ∧ (∀ x, x ∈ extract_symptoms s
        ↔ x ∈ catalogKeys ∧ containsSub x.data (pyLower s).data = true)
    ∧ (extract_symptoms s).Nodup
    ∧ ((∀ k ∈ catalogKeys, containsSub k.data (pyLower s).data = false) →
        (extract_clinical_data s).extracted_symptoms = []
        ∧ (extract_clinical_data s).snomed_codes = []) := by
  refine ⟨extract_symptoms_eq_filter s, fun x => mem_extract_symptoms_iff s x,
    extract_symptoms_nodup s, fun hnone => ?_⟩
  have h0 : extract_symptoms s = [] := by
    rw [extract_symptoms_eq_filter]
    apply List.filter_eq_nil_iff.mpr
    intro k hk
    rw [hnone k ((mem_keywords_iff k).mp hk)]
    simp
  refine ⟨h0, ?_⟩
  show (extract_symptoms s).map (fun k => (codeOf k).getD "") = []
  rw [h0]
  rfl

/-- Witness for C2 at a concrete no-match input. -/
theorem symptom_scan_exact_witness :
    (extract_clinical_data "zzz").extracted_symptoms = []
    ∧ (extract_clinical_data "zzz").snomed_codes = [] :=
  (symptom_scan_exact "zzz").2.2.2 (by decide)

/-- C3: severity is computed by evaluating the three numeric-pattern rules
in fixed priority order with early exit — the slash form, the out-of-ten
form, then the hedged bare digit — scanning matches left to right within
each rule and returning the first captured value passing the [0, 10]
guard; whenever a value is returned it lies in [0, 10]. -/
theorem severity_rule_priority_and_range (s : String) :
    extract_severity s
        = Option.orElse (findFirstValid (finditerCaps pat1 (pyLower s).data))
            (fun _ => Option.orElse (findFirstValid (finditerCaps pat2 (pyLower s).data))
              (fun _ => findFirstValid (finditerCaps pat3 (pyLower s).data)))
    ∧ ∀ v : Int, extract_severity s = some v → 0 ≤ v ∧ v ≤ 10 := by
  constructor
  · show severityLoop (pyLower s).data severityPatterns = _
    simp only [severityPatterns, severityLoop]
    cases findFirstValid (finditerCaps pat1 (pyLower s).data) <;>
      cases findFirstValid (finditerCaps pat2 (pyLower s).data) <;>
        cases findFirstValid (finditerCaps pat3 (pyLower s).data) <;> rfl
  · intro v h
    exact severityLoop_le severityPatterns (pyLower s).data v h

/-- Witness for C3 at a concrete input with a slash-form severity. -/
theorem severity_rule_priority_and_range_witness :
    extract_severity "7/10" = some 7 ∧ (0 ≤ (7 : Int) ∧ (7 : Int) ≤ 10) :=
  ⟨by decide, (severity_rule_priority_and_range "7/10").2 7 (by decide)⟩

/-- C4: the confidence score follows the additive formula of the
specification (base 0.5, bonus 0.25 for a symptom match, bonus 0.15 for a
severity hit, clamped and rounded), its only attainable values are 0.5,
0.65, 0.75 and 0.9 — each attained at a concrete input — and it never
exceeds 0.9. -/
theorem confidence_formula_and_values (s : String) :
    (extract_clinical_data s).confidence_score
        = confidenceSpec ((extract_clinical_data s).extracted_symptoms.length != 0)
            (extract_clinical_data s).severity.isSome
    ∧ ((extract_clinical_data s).confidence_score = 0.5
        ∨ (extract_clinical_data s).confidence_score = 0.65
        ∨ (extract_clinical_data s).confidence_score = 0.75
        ∨ (extract_clinical_data s).confidence_score = 0.9)
    ∧ (extract_clinical_data s).confidence_score ≤ 0.9
    ∧ (extract_clinical_data "").confidence_score = 0.5
    ∧ (extract_clinical_data "7/10").confidence_score = 0.65
    ∧ (extract_clinical_data "fatigue").confidence_score = 0.75
    ∧ (extract_clinical_data "fatigue 7/10").confidence_score = 0.9 := by
  refine ⟨?_, ?_, ?_, ?_, ?_, ?_, ?_⟩
  · show compute_confidence (extract_symptoms s).length (extract_severity s).isSome
        = confidenceSpec ((extract_symptoms s).length != 0) (extract_severity s).isSome
    exact compute_confidence_eq_spec _ _
  · show (compute_confidence (extract_symptoms s).length (extract_severity s).isSome = 0.5
        ∨ compute_confidence (extract_symptoms s).length (extract_severity s).isSome = 0.65
        ∨ compute_confidence (extract_symptoms s).length (extract_severity s).isSome = 0.75
        ∨ compute_confidence (extract_symptoms s).length (extract_severity s).isSome = 0.9)
    rw [compute_confidence_cases]
    split_ifs <;> norm_num
  · show compute_confidence (extract_symptoms s).length (extract_severity s).isSome ≤ 0.9
    rw [compute_confidence_cases]
    split_ifs <;> norm_num
  · rw [confidence_score_eval "" 0 false (by decide) (by decide), compute_confidence_cases]
    norm_num
  · rw [confidence_score_eval "7/10" 0 true (by decide) (by decide), compute_confidence_cases]
    norm_num
  · rw [confidence_score_eval "fatigue" 1 false (by decide) (by decide),
      compute_confidence_cases]
    norm_num
  · rw [confidence_score_eval "fatigue 7/10" 1 true (by decide) (by decide),
      compute_confidence_cases]
    norm_num

/-- C5: on the scenario input, the extractor finds pelvic pain before
fatigue, codes them as 21522001 and 84229001, reads severity 7 from the
out-of-ten phrase, and scores confidence 0.9. -/
theorem scenario_pelvic_pain_extraction :
    (extract_clinical_data
        "I have awful pelvic pain today, maybe a 7 out of 10, and I feel really fatigued.").extracted_symptoms
        = ["pelvic pain", "fatigue"]
    ∧ (extract_clinical_data
        "I have awful pelvic pain today, maybe a 7 out of 10, and I feel really fatigued.").snomed_codes
        = ["21522001", "84229001"]
    ∧ (extract_clinical_data
        "I have awful pelvic pain today, maybe a 7 out of 10, and I feel really fatigued.").severity
        = some 7
    ∧ (extract_clinical_data
        "I have awful pelvic pain today, maybe a 7 out of 10, and I feel really fatigued.").confidence_score
        = 0.9 := by
  refine ⟨by decide, by decide, by decide, ?_⟩
  rw [confidence_score_eval _ 2 true (by decide) (by decide), compute_confidence_cases]
  norm_num

/-- C6 (amended): the record serializes to a document whose field names are
exactly those of the source dictionary — original_text, extracted_symptoms,
snomed_codes, severity, confidence_score. -/
theorem record_field_names_match_source (s : String) :
    (serializeRecord (extract_clinical_data s)).map Prod.fst
      = ["original_text", "extracted_symptoms", "snomed_codes", "severity",
         "confidence_score"] := rfl

/-- C6 counterexample: the field names are not those of the specification
data model, which names the code sequence coded_terms. -/
theorem record_field_names_spec_counterexample :
    ¬ (serializeRecord (extract_clinical_data "")).map Prod.fst
      = ["original_text", "extracted_symptoms", "coded_terms", "severity",
         "confidence_score"] := by decide

/-- C7: the guarded entry point fails with the single error kind (the
TypeError message) exactly when the argument is not a string, with no
partial result, and succeeds on every string argument. -/
theorem input_type_error_iff_nonstring (v : PyValue) :
    (∀ s : String, v = PyValue.str s
        → extract_clinical_data_py v = Except.ok (extract_clinical_data s))
    ∧ ((∀ s : String, v ≠ PyValue.str s)
        → extract_clinical_data_py v = Except.error "user_text must be a string") := by
  constructor
  · intro s hs
    subst hs
    rfl
  · intro h
    cases v with
    | str s => exact absurd rfl (h s)
    | intVal n => rfl
    | pyNone => rfl
    | other t => rfl

/-- Witness for C7: a string argument succeeds, a null argument fails with
the type error. -/
theorem input_type_error_iff_nonstring_witness :
    extract_clinical_data_py (PyValue.str "") = Except.ok (extract_clinical_data "")
    ∧ extract_clinical_data_py PyValue.pyNone
        = Except.error "user_text must be a string" :=
  ⟨(input_type_error_iff_nonstring (PyValue.str "")).1 "" rfl,
   (input_type_error_iff_nonstring PyValue.pyNone).2 (fun _ h => PyValue.noConfusion h)⟩

/-- C8: the original_text field is the input string verbatim, even though
the symptom matching itself runs over the case-folded copy. -/
theorem original_text_verbatim (s : String) :
    (extract_clinical_data s).original_text = s
    ∧ (extract_clinical_data s).extracted_symptoms
        = dedupeAux []
            (SYMPTOM_KEYWORDS.filter (fun k => containsSub k.data (pyLower s).data)) :=
  ⟨rfl, rfl⟩

/-- C9: the per-symptom code lookup is total — every phrase produced by the
symptom matcher is a key of the catalog, so indexing the catalog with it
succeeds. -/
theorem code_lookup_total (s x : String)
    (hx : x ∈ (extract_clinical_data s).extracted_symptoms) :
    x ∈ catalogKeys ∧ (codeOf x).isSome = true := by
  have hk : x ∈ SYMPTOM_KEYWORDS := mem_extract_symptoms s x hx
  exact ⟨(mem_keywords_iff x).mp hk, keywords_have_codes x hk⟩

/-- Witness for C9 at a concrete extraction. -/
theorem code_lookup_total_witness :
    "nausea" ∈ catalogKeys ∧ (codeOf "nausea").isSome = true :=
  code_lookup_total "nausea" "nausea" (by decide)

/-- C10: deduplication applies to phrases, not codes — the symptom list
never repeats a phrase, yet on an input containing both pelvic pain and
abdominal pain the code list holds 21522001 twice, since both phrases map
to that code. -/
theorem dedup_phrases_not_codes :
    (∀ s : String, (extract_clinical_data s).extracted_symptoms.Nodup)
    ∧ (extract_clinical_data "pelvic pain and abdominal pain").extracted_symptoms
        = ["abdominal pain", "pelvic pain"]
    ∧ (extract_clinical_data "pelvic pain and abdominal pain").snomed_codes
        = ["21522001", "21522001"]
    ∧ ¬ (extract_clinical_data "pelvic pain and abdominal pain").snomed_codes.Nodup :=
  ⟨fun s => extract_symptoms_nodup s, by decide, by decide, by decide⟩

end Alexandria
